import Mathlib

/-!
# Verification of the checkpoint-to-transcript reconstruction engine

Shallow embedding of `src/template_agent/src/routes/history.py` (the `history`
route) together with the collaborators it uses.  Python dictionaries are
embedded as structures whose `Option` fields record key presence; untyped JSON
sub-objects that the route only passes through are embedded as association
lists of strings.  The route's two backends (in-memory checkpointer and the
PostgreSQL `checkpoints` table) are embedded as explicit store values, and the
route's exception handling is embedded with `Except` (an `HTTPException`
becomes `Except.error`).

Modules the route imports that are not part of the provided sources
(`core/agent_utils.py`, `schema.py`, `settings.py`, `core/storage.py`) are
modelled from the specification and are marked as such in their doc comments.
-/

namespace TemplateAgent

/-- Association-list stand-in for an opaque JSON object with string keys and
string values (used for `args` of tool calls and for `response_metadata`,
which the route only passes through). -/
abbrev StrMap := List (String × String)

/-- A raw tool-call candidate as found in a message's `kwargs` (or in
`additional_kwargs`).  The route checks `isinstance(tool_call, dict)` and then
looks up the `"name"`, `"args"` and `"id"` keys, so the embedding records a
dictionary candidate by the presence of exactly those keys, plus a `nonDict`
shape for candidates that are not dictionaries. -/
inductive ToolCallCand where
  | dict (name : Option String) (args : Option StrMap) (id : Option String)
  | nonDict
deriving DecidableEq

/-- Modelled from the spec: the normalized tool-call entry
`{name: string, args: mapping, id: string|null}` of §3; the `ToolCall` schema
lives in `template_agent/src/schema.py`, which is not among the sources.  The
constant `"type": "tool_call"` discriminator the route also stores is omitted
because it is identical on every entry. -/
structure ToolCall where
  name : String
  args : StrMap
  id : Option String
deriving DecidableEq

/-- Modelled from the spec: the canonical `ChatMessage` output shape of §3 and
§4.2 (`template_agent/src/schema.py` is not among the sources): a `type`
discriminator, `content`, an ordered `tool_calls` list, pass-through
`response_metadata`, the tool message's own identity (`tool_call_id`, `name`,
§4.2 step 4), and the optional tracking fields `run_id`/`thread_id`/
`session_id`, all absent (`none`) unless explicitly attached. -/
structure ChatMessage where
  type : String
  content : String
  tool_calls : List ToolCall := []
  response_metadata : StrMap := []
  tool_call_id : Option String := none
  name : Option String := none
  run_id : Option String := none
  thread_id : Option String := none
  session_id : Option String := none
deriving DecidableEq

/-- A raw message in typed-object shape, i.e. what `channel_values["messages"]`
holds in a checkpoint snapshot and what the route hands to
`langchain_to_chat_message`: one of the three LangChain message classes, or a
value of unsupported shape / unrecognized discriminator (`unsupported`), whose
conversion raises and is skipped by the route. -/
inductive RawTyped where
  | human (content : String)
  | ai (content : String) (tool_calls : List ToolCallCand)
       (additional_tool_calls : List ToolCallCand) (response_metadata : StrMap)
  | tool (content : String) (tool_call_id : Option String) (name : String)
         (response_metadata : StrMap)
  | unsupported
deriving DecidableEq

/-- Modelled from the spec: tool-call normalization inside the Message
Normalizer (§4.2 step 3 and §3): a candidate carrying both a `name` and an
`args` field yields a normalized entry with `name`, `args` and `id` taken as
stored; any other candidate is dropped silently. -/
def specToolCall : ToolCallCand → Option ToolCall
  | .dict (some n) (some a) i => some { name := n, args := a, id := i }
  | _ => none

/-- Modelled from the spec: `langchain_to_chat_message` from
`template_agent/src/core/agent_utils.py`, which is not among the sources.
Per §4.2: the discriminator and `content` are read from the typed object; for
`ai` messages tool-call candidates come from `tool_calls` if present (i.e.
non-empty), else from `additional_kwargs.tool_calls`, and candidates missing
`name` or `args` are dropped; for `tool` messages `tool_call_id` and `name`
are captured as the message's own identity; `response_metadata` is passed
through; the tracking fields are left unset (they are enrichments attached by
the caller).  An unsupported shape fails (`UnsupportedMessageShape`), embedded
as `none`. -/
def langchain_to_chat_message : RawTyped → Option ChatMessage
  | .human content => some { type := "human", content := content }
  | .ai content tool_calls additional_tool_calls response_metadata =>
      let cands := if tool_calls.isEmpty then additional_tool_calls else tool_calls
      some { type := "ai", content := content,
             tool_calls := cands.filterMap specToolCall,
             response_metadata := response_metadata }
  | .tool content tool_call_id name response_metadata =>
      some { type := "tool", content := content,
             tool_call_id := tool_call_id, name := some name,
             response_metadata := response_metadata }
  | .unsupported => none

/-- The `channel_values` mapping of a checkpoint; `messages` is `some` exactly
when the `"messages"` key is present (`if "messages" in channel_values`). -/
structure ChannelValues where
  messages : Option (List RawTyped)
deriving DecidableEq

/-- A checkpoint blob; `channel_values` is `some` exactly when the
`"channel_values"` key is present. -/
structure Checkpoint where
  channel_values : Option ChannelValues
deriving DecidableEq

/-- One element of `checkpointer.list(config)` as the in-memory branch uses
it; `checkpoint` is `none` when `checkpoint_tuple.checkpoint` is falsy. -/
structure CheckpointTuple where
  checkpoint : Option Checkpoint
deriving DecidableEq

/-- Reads `checkpoint["channel_values"]["messages"]` with the route's presence
checks (`history.py` lines 139-145, 259-264): `some` exactly when the
checkpoint is truthy, has a `channel_values` key, and that mapping has a
`messages` key. -/
def checkpointMessages (c : Option Checkpoint) : Option (List RawTyped) :=
  match c with
  | some cp =>
    match cp.channel_values with
    | some cv => cv.messages
    | none => none
  | none => none

/-- Snapshot messages of an in-memory checkpoint tuple. -/
def snapshotMessages (t : CheckpointTuple) : Option (List RawTyped) :=
  checkpointMessages t.checkpoint

/-- The `kwargs["additional_kwargs"]` record: may carry a `tool_calls` key. -/
structure AdditionalKwargs where
  tool_calls : Option (List ToolCallCand)
deriving DecidableEq

/-- The `kwargs` record of a structured raw message; each field is `some`
exactly when the corresponding key is present in the dictionary. -/
structure Kwargs where
  type : Option String
  content : Option String
  response_metadata : Option StrMap
  tool_calls : Option (List ToolCallCand)
  additional_kwargs : Option AdditionalKwargs
  tool_call_id : Option String
  name : Option String
deriving DecidableEq

/-- A raw delta-write message (`message_data`) as validated by the route
(`history.py` lines 395-403): not a dictionary at all, a dictionary without a
`"kwargs"` key, or a dictionary with a `kwargs` record. -/
inductive MessageData where
  | notDict
  | dictNoKwargs
  | withKwargs (kwargs : Kwargs)
deriving DecidableEq

/-- The value of a writer stage inside `metadata["writes"]`; `messages` is
`some` exactly when the stage's mapping has a `"messages"` key. -/
structure StageValue where
  messages : Option (List MessageData)
deriving DecidableEq

/-- The `metadata["writes"]` mapping: the three writer stages the route consults, each
`some` exactly when the corresponding key (`"__start__"`, `"agent"`,
`"tools"`) is present. -/
structure Writes where
  start : Option StageValue
  agent : Option StageValue
  tools : Option StageValue
deriving DecidableEq

/-- The checkpoint `metadata` blob as the route reads it: the route calls
`metadata.get` for `"run_id"`, `"session_id"`, `"user_id"` and `"writes"`.
The blob is an arbitrary JSON mapping, so a `"thread_id"` key may also be
present; the route never reads it (this matters for the enrichment claims).
`writes := none` covers both an absent `"writes"` key and a JSON `null`
value, which the route maps to the empty mapping alike (lines 363-368). -/
structure Metadata where
  run_id : Option String
  session_id : Option String
  user_id : Option String
  thread_id : Option String
  writes : Option Writes
deriving DecidableEq

/-- One row of `SELECT checkpoint, metadata FROM checkpoints ...`; either blob
may be falsy (`none`). -/
structure PgRow where
  checkpoint : Option Checkpoint
  metadata : Option Metadata
deriving DecidableEq

/-- Modelled from the spec: the persistent checkpoint-store backend (§4.1,
§6); `template_agent/src/core/storage.py` and the database connection are not
among the sources.  `rows` holds the thread's checkpoint rows in ascending
`checkpoint_id` order (so `ORDER BY checkpoint_id DESC LIMIT 1` is the last
element and `ORDER BY checkpoint_id ASC` is the list itself); `available`
is false when connecting to or querying the store raises. -/
structure PgStore where
  available : Bool
  rows : List PgRow
deriving DecidableEq

/-- Modelled from the spec: the in-memory checkpointer backend (§4.1);
`get_shared_checkpointer` lives in `template_agent/src/core/storage.py`, which
is not among the sources.  `checkpoints` holds the thread's checkpoints in the
order they were appended (oldest first, §4.1), which the route indexes with
`state_history[-1]` for the latest; `available` is false when listing the
checkpointer raises. -/
structure InMemStore where
  available : Bool
  checkpoints : List CheckpointTuple
deriving DecidableEq

/-- Modelled from the spec: the backend switch (§6) consumed by the route as
`settings.USE_INMEMORY_SAVER`; `template_agent/src/settings.py` is not among
the sources. -/
structure Settings where
  USE_INMEMORY_SAVER : Bool
deriving DecidableEq

/-- Python truthiness of an optional string: `None` and `""` are falsy. -/
def truthyOpt : Option String → Option String
  | some s => if s = "" then none else some s
  | none => none

/-- Python truthiness of a string: `""` is falsy. -/
def truthyStr (s : String) : Option String :=
  if s = "" then none else some s

/-- The three tracking-field assignments the route performs after converting
a message (`history.py` lines 299-304 and 463-468): each field is overwritten
only when the corresponding value is truthy. -/
def enrichIds (thread_id : String) (run_id session_id : Option String)
    (cm : ChatMessage) : ChatMessage :=
  let cm := match truthyOpt run_id with
    | some r => { cm with run_id := some r }
    | none => cm
  let cm := match truthyStr thread_id with
    | some t => { cm with thread_id := some t }
    | none => cm
  match truthyOpt session_id with
  | some s => { cm with session_id := some s }
  | none => cm

/-- Reads `metadata.get("run_id") if metadata else None`. -/
def metaRunId (r : PgRow) : Option String :=
  match r.metadata with
  | some m => m.run_id
  | none => none

/-- Reads `metadata.get("session_id") if metadata else None`. -/
def metaSessionId (r : PgRow) : Option String :=
  match r.metadata with
  | some m => m.session_id
  | none => none

/-- The empty `writes` mapping. -/
def emptyWrites : Writes := { start := none, agent := none, tools := none }

/-- Computes `writes = metadata.get("writes", {}) if metadata else {}` with the
`None` guard (`history.py` lines 363-368). -/
def rowWrites (r : PgRow) : Writes :=
  match r.metadata with
  | some m => m.writes.getD emptyWrites
  | none => emptyWrites

/-- The messages of one writer stage: empty when the stage key is absent or
the stage's mapping has no `"messages"` key. -/
def stageMessages (sv : Option StageValue) : List MessageData :=
  match sv with
  | some v => v.messages.getD []
  | none => []

/-- One conditional `messages.extend(...)` of the fallback path: extend the
accumulator with a stage's messages when the stage key and its `"messages"`
key are both present (`if "__start__" in writes and "messages" in
writes["__start__"]`). -/
def extendStage (acc : List MessageData) (sv : Option StageValue) :
    List MessageData :=
  match sv with
  | some v =>
    match v.messages with
    | some ms => acc ++ ms
    | none => acc
  | none => acc

/-- The per-checkpoint candidate collection of the fallback path
(`history.py` lines 362-386), translated statement by statement: start from
the empty list and conditionally extend with the `"__start__"`, `"agent"` and
`"tools"` stages, in that textual order. -/
def collectMessages (w : Writes) : List MessageData :=
  let messages : List MessageData := []
  let messages := extendStage messages w.start
  let messages := extendStage messages w.agent
  let messages := extendStage messages w.tools
  messages

/-- Computes `tool_calls = kwargs.get("tool_calls", [])` followed by the
`additional_kwargs` fallback (`history.py` lines 412-416). -/
def selectToolCalls (k : Kwargs) : List ToolCallCand :=
  let tool_calls := k.tool_calls.getD []
  if tool_calls.isEmpty then
    match k.additional_kwargs with
    | some ak => ak.tool_calls.getD []
    | none => tool_calls
  else
    tool_calls

/-- The tool-call re-formatting of the fallback path (`history.py` lines
478-491): a candidate must be a dictionary and carry both `"name"` and
`"args"`; its `"id"` is kept only when truthy
(`str(tool_call.get("id")) if tool_call.get("id") else None`). -/
def formatToolCall : ToolCallCand → Option ToolCall
  | .dict name args id =>
    match name, args with
    | some n, some a => some { name := n, args := a, id := truthyOpt id }
    | _, _ => none
  | .nonDict => none

/-- The LangChain message the fallback path constructs from a validated
kwargs record (`history.py` lines 407-457): read the kwargs fields with their
`get` defaults, select tool-call candidates, and build a `HumanMessage`,
`AIMessage` or `ToolMessage` depending on the discriminator; any other
discriminator is skipped (`none`).  The route wraps the constructed message's
response metadata inside `additional_kwargs`; the embedding carries it in the
constructor's `response_metadata` field directly. -/
def buildRawMessage (k : Kwargs) : Option RawTyped :=
  let message_type := k.type.getD ""
  let content := k.content.getD ""
  let response_metadata := k.response_metadata.getD []
  let tool_calls := selectToolCalls k
  if message_type = "human" then
    some (.human content)
  else if message_type = "ai" then
    some (.ai content tool_calls [] response_metadata)
  else if message_type = "tool" then
    some (.tool content k.tool_call_id (k.name.getD "") response_metadata)
  else
    none

/-- The post-conversion fix-ups of the fallback path (`history.py` lines
462-496): attach the tracking fields, overwrite `response_metadata` when the
kwargs value is truthy, and overwrite `tool_calls` with the re-formatted
candidates when the candidate list is truthy. -/
def postConvert (thread_id : String) (run_id session_id : Option String)
    (response_metadata : StrMap) (tool_calls : List ToolCallCand)
    (cm : ChatMessage) : ChatMessage :=
  let cm := enrichIds thread_id run_id session_id cm
  let cm := if response_metadata.isEmpty then cm
            else { cm with response_metadata := response_metadata }
  if tool_calls.isEmpty then cm
  else { cm with tool_calls := tool_calls.filterMap formatToolCall }

/-- The body of the fallback path's per-message loop (`history.py` lines
391-512, without the final append): validate the shape, build the LangChain
message for a recognized discriminator (anything else is skipped), convert it
with `langchain_to_chat_message` (a conversion failure is caught and the
message skipped), then apply the post-conversion fix-ups. -/
def processMessageData (thread_id : String) (run_id session_id : Option String) :
    MessageData → Option ChatMessage
  | .notDict => none
  | .dictNoKwargs => none
  | .withKwargs k =>
    match buildRawMessage k with
    | none => none
    | some m =>
      match langchain_to_chat_message m with
      | none => none
      | some cm =>
        some (postConvert thread_id run_id session_id
          (k.response_metadata.getD []) (selectToolCalls k) cm)

/-- One iteration of an accumulate-by-append loop: run `f` on the element and
append the result to the accumulator when it succeeds. -/
def appendStep {α : Type} (f : α → Option ChatMessage)
    (acc : List ChatMessage) (x : α) : List ChatMessage :=
  match f x with
  | some cm => acc ++ [cm]
  | none => acc

/-- The fallback path's per-checkpoint step (`history.py` lines 346-512):
collect the row's delta-write messages and append each successful conversion
to the running transcript. -/
def pgStep (thread_id : String) (acc : List ChatMessage) (r : PgRow) :
    List ChatMessage :=
  (collectMessages (rowWrites r)).foldl
    (appendStep (processMessageData thread_id (metaRunId r) (metaSessionId r)))
    acc

/-- The persistent backend's fallback merge (`history.py` lines 331-519):
process every checkpoint row in ascending order, threading one `chat_messages`
accumulator; no duplicate check is performed on this path. -/
def pgFallback (thread_id : String) (rows : List PgRow) : List ChatMessage :=
  rows.foldl (pgStep thread_id) []

/-- One message of the complete-state loop: convert with
`langchain_to_chat_message` (a failure is caught and skipped) and, on
success, attach the tracking fields from the row's metadata. -/
def convertEnrich (thread_id : String) (r : PgRow) (message : RawTyped) :
    Option ChatMessage :=
  match langchain_to_chat_message message with
  | some cm => some (enrichIds thread_id (metaRunId r) (metaSessionId r) cm)
  | none => none

/-- The persistent backend's complete-state path (`history.py` lines
289-316): convert every snapshot message of the latest row in order (a
conversion failure is skipped) and attach the tracking fields from the
latest row's metadata. -/
def pgComplete (thread_id : String) (r : PgRow) (msgs : List RawTyped) :
    List ChatMessage :=
  msgs.foldl (appendStep (convertEnrich thread_id r)) []

/-- The persistent branch of the route (`history.py` lines 231-527): on a
store failure the route raises `HTTPException(500, ...)` (embedded as
`Except.error`); otherwise it takes the latest row's snapshot messages when
the `"messages"` key is present (returning immediately, even when the list is
empty) and falls back to merging every row's delta-writes otherwise. -/
def pgHistory (store : PgStore) (thread_id : String) :
    Except String (List ChatMessage) :=
  if store.available then
    match store.rows.getLast? with
    | some latest_row =>
      match checkpointMessages latest_row.checkpoint with
      | some checkpoint_messages =>
        .ok (pgComplete thread_id latest_row checkpoint_messages)
      | none => .ok (pgFallback thread_id store.rows)
    | none => .ok (pgFallback thread_id store.rows)
  else
    .error "Failed to retrieve chat history"

/-- The in-memory branch's latest-checkpoint conversion (`history.py` lines
132-162): convert the snapshot messages of `state_history[-1]` in order,
skipping conversion failures; no tracking fields are attached on this
branch. -/
def convertLatest (checkpoints : List CheckpointTuple) : List ChatMessage :=
  match checkpoints.getLast? with
  | some latest =>
    match snapshotMessages latest with
    | some msgs => msgs.foldl (appendStep langchain_to_chat_message) []
    | none => []
  | none => []

/-- The duplicate check of the in-memory fallback (`history.py` lines
187-210): append the converted message only when no accumulated message has
the same type and the same content. -/
def dedupAppend (chat_messages : List ChatMessage) (cm : ChatMessage) :
    List ChatMessage :=
  if chat_messages.any (fun e => e.type == cm.type && e.content == cm.content) then
    chat_messages
  else
    chat_messages ++ [cm]

/-- Per-message step of the in-memory fallback: convert (skipping failures)
and append with the duplicate check. -/
def inmemMsgStep (acc : List ChatMessage) (m : RawTyped) : List ChatMessage :=
  match langchain_to_chat_message m with
  | some cm => dedupAppend acc cm
  | none => acc

/-- Per-checkpoint step of the in-memory fallback (`history.py` lines
167-216): process the checkpoint's snapshot messages when present. -/
def inmemStep (acc : List ChatMessage) (t : CheckpointTuple) : List ChatMessage :=
  match snapshotMessages t with
  | some msgs => msgs.foldl inmemMsgStep acc
  | none => acc

/-- The in-memory fallback merge over all checkpoints. -/
def inmemFallback (checkpoints : List CheckpointTuple) : List ChatMessage :=
  checkpoints.foldl inmemStep []

/-- The in-memory branch of the route (`history.py` lines 61-229): any
exception degrades to an empty message list; with zero checkpoints the list
stays empty; otherwise the latest checkpoint's snapshot is converted first and
the deduplicating fallback over all checkpoints runs only when that produced
zero messages. -/
def inmemHistory (store : InMemStore) : List ChatMessage :=
  if store.available then
    if store.checkpoints.isEmpty then []
    else
      let chat_messages := convertLatest store.checkpoints
      if chat_messages.isEmpty then inmemFallback store.checkpoints
      else chat_messages
  else []

/-- The whole `history` route (`history.py` lines 24-527): dispatch on
`settings.USE_INMEMORY_SAVER`; the in-memory branch always answers
successfully, the persistent branch may raise an `HTTPException`
(`Except.error`). -/
def history (s : Settings) (inmem : InMemStore) (pg : PgStore)
    (thread_id : String) : Except String (List ChatMessage) :=
  if s.USE_INMEMORY_SAVER then .ok (inmemHistory inmem)
  else pgHistory pg thread_id

/-- The clean form of the fallback path's per-checkpoint contribution:
the row's candidates, each converted with the row's own metadata. -/
def processRowClean (thread_id : String) (r : PgRow) : List ChatMessage :=
  (collectMessages (rowWrites r)).filterMap
    (processMessageData thread_id (metaRunId r) (metaSessionId r))

/-- Two messages agree on the deduplication key of the in-memory fallback:
same type and same content. -/
def keyEq (a b : ChatMessage) : Prop := a.type = b.type ∧ a.content = b.content

instance (a b : ChatMessage) : Decidable (keyEq a b) := by
  unfold keyEq; infer_instance

/-- No two entries (adjacent or not) of the list share the deduplication
key. -/
def NoDupKeys (l : List ChatMessage) : Prop :=
  l.Pairwise (fun a b => ¬ keyEq a b)

/-- The route's shape validation, as a predicate: a delta-write message that
is not a dictionary, has no `kwargs`, or carries an unrecognized
discriminator. -/
def unsupportedShape : MessageData → Bool
  | .notDict => true
  | .dictNoKwargs => true
  | .withKwargs k =>
    let t := k.type.getD ""
    !(t == "human" || t == "ai" || t == "tool")

/-! ## Concrete fixtures used by witnesses and counterexamples -/

/-- A structured-record human message with content `"ok"`. -/
def humanOkKwargs : Kwargs :=
  { type := some "human", content := some "ok", response_metadata := none,
    tool_calls := none, additional_kwargs := none, tool_call_id := none,
    name := none }

/-- A persistent-store row with no snapshot but one `__start__` delta
message. -/
def dupRow : PgRow :=
  { checkpoint := none,
    metadata := some
      { run_id := none, session_id := none, user_id := none, thread_id := none,
        writes := some
          { start := some { messages := some [.withKwargs humanOkKwargs] },
            agent := none, tools := none } } }

/-- A persistent store whose two rows each carry the same delta message. -/
def dupStore : PgStore := { available := true, rows := [dupRow, dupRow] }

/-- The converted and enriched form of `humanOkKwargs` for thread `"t2"`. -/
def okMsg : ChatMessage :=
  { type := "human", content := "ok", thread_id := some "t2" }

/-- An in-memory checkpoint whose snapshot holds two identical messages. -/
def dedupTuple1 : CheckpointTuple :=
  { checkpoint :=
      some { channel_values := some { messages := some [.human "ok", .human "ok"] } } }

/-- An in-memory checkpoint without channel values. -/
def dedupTuple2 : CheckpointTuple :=
  { checkpoint := some { channel_values := none } }

/-- An in-memory store whose latest checkpoint yields no messages, forcing
the fallback. -/
def dedupStore : InMemStore :=
  { available := true, checkpoints := [dedupTuple1, dedupTuple2] }

/-- An `ai` kwargs record with a non-empty `tool_calls` list and a decoy
`additional_kwargs`. -/
def aiKwargs9 : Kwargs :=
  { type := some "ai", content := some "hi", response_metadata := none,
    tool_calls := some [.dict (some "search") (some [("q", "x")]) (some "id1")],
    additional_kwargs := some { tool_calls := some [.nonDict] },
    tool_call_id := none, name := none }

/-- A tool-call candidate with both required fields and an empty-string id. -/
def cand6 : ToolCallCand := .dict (some "search") (some [("q", "x")]) (some "")

/-- An `ai` kwargs record carrying `cand6`. -/
def aiKwargs6 : Kwargs :=
  { type := some "ai", content := some "hi", response_metadata := none,
    tool_calls := some [cand6], additional_kwargs := none,
    tool_call_id := none, name := none }

/-- Checkpoint metadata that itself carries a (never consulted) `thread_id`
key, together with truthy `run_id` and `session_id`. -/
def cex5meta : Metadata :=
  { run_id := some "r1", session_id := some "s1", user_id := none,
    thread_id := some "other",
    writes := some
      { start := some { messages := some [.withKwargs humanOkKwargs] },
        agent := none, tools := none } }

/-- A snapshot-free row with metadata `cex5meta`. -/
def cex5row : PgRow := { checkpoint := none, metadata := some cex5meta }

/-- The message the fallback produces from `cex5row` for thread `"t1"`. -/
def cex5msg : ChatMessage :=
  { type := "human", content := "ok", run_id := some "r1",
    thread_id := some "t1", session_id := some "s1" }

/-- An in-memory checkpoint whose snapshot holds two identical `"hi"`
messages. -/
def snapTuple : CheckpointTuple :=
  { checkpoint :=
      some { channel_values := some { messages := some [.human "hi", .human "hi"] } } }

/-- An in-memory store with `snapTuple` as its only (hence latest)
checkpoint. -/
def snapStore : InMemStore := { available := true, checkpoints := [snapTuple] }

/-- A persistent row whose snapshot holds two identical `"hi"` messages. -/
def snapRow : PgRow :=
  { checkpoint :=
      some { channel_values := some { messages := some [.human "hi", .human "hi"] } },
    metadata := some { run_id := some "r1", session_id := none,
                       user_id := none, thread_id := none, writes := none } }

/-- A persistent store with `snapRow` as its only (hence latest) row. -/
def snapPgStore : PgStore := { available := true, rows := [snapRow] }

/-! ## Helper lemmas -/

/-- An accumulate-by-append loop is `filterMap` prefixed by the accumulator. -/
theorem foldl_appendStep {α : Type} (f : α → Option ChatMessage) :
    ∀ (l : List α) (acc : List ChatMessage),
      l.foldl (appendStep f) acc = acc ++ l.filterMap f := by
  intro l
  induction l with
  | nil => intro acc; simp
  | cons x xs ih =>
    intro acc
    rw [List.foldl_cons, List.filterMap_cons]
    cases h : f x with
    | none =>
      rw [show appendStep f acc x = acc by simp [appendStep, h], ih]
    | some cm =>
      rw [show appendStep f acc x = acc ++ [cm] by simp [appendStep, h], ih]
      simp

/-- A `filterMap` keeps the length when the function succeeds everywhere. -/
theorem length_filterMap_of_isSome {α β : Type} (f : α → Option β) :
    ∀ l : List α, (∀ m ∈ l, (f m).isSome) → (l.filterMap f).length = l.length := by
  intro l
  induction l with
  | nil => intro _; rfl
  | cons x xs ih =>
    intro h
    obtain ⟨c, hc⟩ := Option.isSome_iff_exists.mp (h x (List.mem_cons_self x xs))
    have ihx := ih (fun m hm => h m (List.mem_cons_of_mem x hm))
    simp [List.filterMap_cons, hc, ihx]

/-- The conditional stage extension appends exactly the stage's messages. -/
theorem extendStage_eq (acc : List MessageData) (sv : Option StageValue) :
    extendStage acc sv = acc ++ stageMessages sv := by
  cases sv with
  | none => simp [extendStage, stageMessages]
  | some v =>
    cases h : v.messages with
    | none => simp [extendStage, stageMessages, h]
    | some ms => simp [extendStage, stageMessages, h]

/-- The fallback candidate collection is the concatenation of the three
stages' message lists, in the fixed `__start__`, `agent`, `tools` order. -/
theorem collectMessages_eq (w : Writes) :
    collectMessages w
      = stageMessages w.start ++ stageMessages w.agent ++ stageMessages w.tools := by
  simp [collectMessages, extendStage_eq]

/-- One fallback step appends the row's contribution to the accumulator. -/
theorem pgStep_eq (thread_id : String) (acc : List ChatMessage) (r : PgRow) :
    pgStep thread_id acc r = acc ++ processRowClean thread_id r := by
  unfold pgStep processRowClean
  exact foldl_appendStep _ _ acc

/-- Generalized-accumulator form of the fallback merge. -/
theorem pgFallback_acc (thread_id : String) :
    ∀ (rows : List PgRow) (acc : List ChatMessage),
      rows.foldl (pgStep thread_id) acc = acc ++ pgFallback thread_id rows := by
  intro rows
  induction rows with
  | nil => intro acc; simp [pgFallback]
  | cons r rs ih =>
    intro acc
    have hr : pgFallback thread_id (r :: rs)
        = pgStep thread_id [] r ++ pgFallback thread_id rs := by
      show (r :: rs).foldl (pgStep thread_id) [] = _
      rw [List.foldl_cons, ih (pgStep thread_id [] r)]
    rw [List.foldl_cons, ih (pgStep thread_id acc r), hr,
        pgStep_eq thread_id acc r, pgStep_eq thread_id [] r]
    simp

/-- The fallback merge of no rows is empty. -/
theorem pgFallback_nil (thread_id : String) : pgFallback thread_id [] = [] := rfl

/-- The fallback merge processes rows in order, concatenating each row's
contribution. -/
theorem pgFallback_cons (thread_id : String) (r : PgRow) (rows : List PgRow) :
    pgFallback thread_id (r :: rows)
      = processRowClean thread_id r ++ pgFallback thread_id rows := by
  show (r :: rows).foldl (pgStep thread_id) [] = _
  rw [List.foldl_cons, pgFallback_acc thread_id rows (pgStep thread_id [] r),
      pgStep_eq thread_id [] r]
  simp

/-- Every message of the fallback transcript comes from some row's candidate
list, converted with that row's own metadata. -/
theorem mem_pgFallback {thread_id : String} {rows : List PgRow} {cm : ChatMessage}
    (h : cm ∈ pgFallback thread_id rows) :
    ∃ r ∈ rows, ∃ md ∈ collectMessages (rowWrites r),
      processMessageData thread_id (metaRunId r) (metaSessionId r) md = some cm := by
  induction rows with
  | nil => simp [pgFallback] at h
  | cons r rs ih =>
    rw [pgFallback_cons, List.mem_append] at h
    cases h with
    | inl h1 =>
      obtain ⟨md, hmd, hp⟩ := List.mem_filterMap.mp h1
      exact ⟨r, List.mem_cons_self r rs, md, hmd, hp⟩
    | inr h2 =>
      obtain ⟨r2, hr2, md, hmd, hp⟩ := ih h2
      exact ⟨r2, List.mem_cons_of_mem r hr2, md, hmd, hp⟩

/-- The modelled normalizer never sets the tracking fields. -/
theorem langchain_ids_none {m : RawTyped} {cm : ChatMessage}
    (h : langchain_to_chat_message m = some cm) :
    cm.run_id = none ∧ cm.thread_id = none ∧ cm.session_id = none := by
  cases m with
  | human content =>
    simp [langchain_to_chat_message] at h
    subst h; exact ⟨rfl, rfl, rfl⟩
  | ai content tool_calls additional_tool_calls response_metadata =>
    simp [langchain_to_chat_message] at h
    subst h; exact ⟨rfl, rfl, rfl⟩
  | tool content tool_call_id name response_metadata =>
    simp [langchain_to_chat_message] at h
    subst h; exact ⟨rfl, rfl, rfl⟩
  | unsupported => simp [langchain_to_chat_message] at h

/-- The `enrichIds` helper writes exactly the truthy tracking values over unset fields
and leaves every other field unchanged. -/
theorem enrichIds_fields (thread_id : String) (run_id session_id : Option String)
    (cm : ChatMessage) :
    (enrichIds thread_id run_id session_id cm).type = cm.type
    ∧ (enrichIds thread_id run_id session_id cm).content = cm.content
    ∧ (enrichIds thread_id run_id session_id cm).tool_calls = cm.tool_calls
    ∧ (enrichIds thread_id run_id session_id cm).response_metadata = cm.response_metadata
    ∧ (cm.run_id = none → (enrichIds thread_id run_id session_id cm).run_id = truthyOpt run_id)
    ∧ (cm.thread_id = none → (enrichIds thread_id run_id session_id cm).thread_id = truthyStr thread_id)
    ∧ (cm.session_id = none → (enrichIds thread_id run_id session_id cm).session_id = truthyOpt session_id) := by
  unfold enrichIds
  cases hr : truthyOpt run_id <;> cases ht : truthyStr thread_id <;>
    cases hs : truthyOpt session_id <;>
      simp_all

/-- The duplicate-checked append preserves key-uniqueness. -/
theorem dedupAppend_noDupKeys {acc : List ChatMessage} {cm : ChatMessage}
    (h : NoDupKeys acc) : NoDupKeys (dedupAppend acc cm) := by
  unfold dedupAppend
  split
  · exact h
  · next hany =>
    unfold NoDupKeys at h ⊢
    rw [List.pairwise_append]
    refine ⟨h, List.pairwise_singleton _ _, ?_⟩
    intro a ha b hb
    rw [List.mem_singleton] at hb
    subst hb
    intro hk
    apply hany
    rw [List.any_eq_true]
    refine ⟨a, ha, ?_⟩
    simp [hk.1, hk.2]

/-- The in-memory fallback's inner message loop preserves key-uniqueness. -/
theorem foldl_inmemMsgStep_noDupKeys (msgs : List RawTyped) :
    ∀ acc, NoDupKeys acc → NoDupKeys (msgs.foldl inmemMsgStep acc) := by
  induction msgs with
  | nil => intro acc h; simpa using h
  | cons m ms ih =>
    intro acc h
    rw [List.foldl_cons]
    apply ih
    unfold inmemMsgStep
    split
    all_goals first
    | exact dedupAppend_noDupKeys h
    | exact h

/-- The in-memory fallback transcript has pairwise-distinct
`(type, content)` keys. -/
theorem inmemFallback_noDupKeys (checkpoints : List CheckpointTuple) :
    NoDupKeys (inmemFallback checkpoints) := by
  suffices hgen : ∀ acc, NoDupKeys acc → NoDupKeys (checkpoints.foldl inmemStep acc) from
    hgen [] List.Pairwise.nil
  induction checkpoints with
  | nil => intro acc h; simpa using h
  | cons t ts ih =>
    intro acc h
    rw [List.foldl_cons]
    apply ih
    unfold inmemStep
    split
    all_goals first
    | exact foldl_inmemMsgStep_noDupKeys _ _ h
    | exact h

/-- With a non-empty `tool_calls` list in the kwargs, the selection never
consults `additional_kwargs`. -/
theorem selectToolCalls_update (k : Kwargs) (ak : Option AdditionalKwargs)
    (h : k.tool_calls.getD [] ≠ []) :
    selectToolCalls { k with additional_kwargs := ak } = selectToolCalls k := by
  cases hl : k.tool_calls.getD [] with
  | nil => exact absurd hl h
  | cons x xs => simp [selectToolCalls, hl]

/-- With an `"ai"` discriminator the constructed message is an `AIMessage`
carrying the content, the selected candidates and the kwargs response
metadata. -/
theorem buildRawMessage_ai (k : Kwargs) (h : k.type.getD "" = "ai") :
    buildRawMessage k
      = some (.ai (k.content.getD "") (selectToolCalls k) []
          (k.response_metadata.getD [])) := by
  unfold buildRawMessage
  simp [h]

/-- Full characterization of the fallback path's per-message processing on an
`"ai"` kwargs record. -/
theorem processMessageData_ai_eq (thread_id : String)
    (run_id session_id : Option String) (k : Kwargs)
    (h : k.type.getD "" = "ai") :
    processMessageData thread_id run_id session_id (.withKwargs k)
      = some { type := "ai", content := k.content.getD "",
               tool_calls := (selectToolCalls k).filterMap formatToolCall,
               response_metadata := k.response_metadata.getD [],
               run_id := truthyOpt run_id,
               thread_id := truthyStr thread_id,
               session_id := truthyOpt session_id } := by
  simp only [processMessageData]
  rw [buildRawMessage_ai k h]
  unfold langchain_to_chat_message postConvert enrichIds
  cases hr : truthyOpt run_id <;> cases ht : truthyStr thread_id <;>
    cases hs : truthyOpt session_id <;>
      by_cases hsel : (selectToolCalls k).isEmpty <;>
        by_cases hrm : (k.response_metadata.getD []).isEmpty <;>
          simp_all [List.isEmpty_iff]

/-- The post-conversion fix-ups write exactly the truthy tracking values. -/
theorem postConvert_ids (thread_id : String) (run_id session_id : Option String)
    (rm : StrMap) (tcs : List ToolCallCand) (cm : ChatMessage)
    (h1 : cm.run_id = none) (h2 : cm.thread_id = none) (h3 : cm.session_id = none) :
    (postConvert thread_id run_id session_id rm tcs cm).run_id = truthyOpt run_id
    ∧ (postConvert thread_id run_id session_id rm tcs cm).thread_id = truthyStr thread_id
    ∧ (postConvert thread_id run_id session_id rm tcs cm).session_id = truthyOpt session_id := by
  obtain ⟨-, -, -, -, hr, ht, hs⟩ := enrichIds_fields thread_id run_id session_id cm
  unfold postConvert
  by_cases hrm : rm.isEmpty <;> by_cases htc : tcs.isEmpty <;>
    simp [hrm, htc, hr h1, ht h2, hs h3]

/-- Every successfully processed fallback message carries exactly the truthy
tracking values it was given: `run_id`/`session_id` from the metadata values
passed in and `thread_id` from the requested thread id. -/
theorem processMessageData_ids (thread_id : String) (run_id session_id : Option String)
    (md : MessageData) (cm : ChatMessage)
    (h : processMessageData thread_id run_id session_id md = some cm) :
    cm.run_id = truthyOpt run_id ∧ cm.thread_id = truthyStr thread_id
    ∧ cm.session_id = truthyOpt session_id := by
  cases md with
  | notDict => simp [processMessageData] at h
  | dictNoKwargs => simp [processMessageData] at h
  | withKwargs k =>
    simp only [processMessageData] at h
    cases hb : buildRawMessage k with
    | none => simp only [hb] at h; exact absurd h (by simp)
    | some m =>
      simp only [hb] at h
      cases hc : langchain_to_chat_message m with
      | none => simp only [hc] at h; exact absurd h (by simp)
      | some cm0 =>
        simp only [hc, Option.some.injEq] at h
        subst h
        obtain ⟨h1, h2, h3⟩ := langchain_ids_none hc
        exact postConvert_ids thread_id run_id session_id _ _ cm0 h1 h2 h3

/-- A message of unsupported shape or unrecognized discriminator is skipped
by the fallback path's per-message processing. -/
theorem processMessageData_unsupported (thread_id : String)
    (run_id session_id : Option String) (md : MessageData)
    (h : unsupportedShape md = true) :
    processMessageData thread_id run_id session_id md = none := by
  cases md with
  | notDict => rfl
  | dictNoKwargs => rfl
  | withKwargs k =>
    simp only [unsupportedShape, Bool.not_eq_true', Bool.or_eq_false_iff,
      beq_eq_false_iff_ne, ne_eq] at h
    have hb : buildRawMessage k = none := by
      unfold buildRawMessage
      simp [h.1.1, h.1.2, h.2]
    simp only [processMessageData, hb]

/-- Latest-checkpoint conversion, clean form. -/
theorem convertLatest_eq {checkpoints : List CheckpointTuple}
    {latest : CheckpointTuple} {msgs : List RawTyped}
    (h1 : checkpoints.getLast? = some latest)
    (h2 : snapshotMessages latest = some msgs) :
    convertLatest checkpoints = msgs.filterMap langchain_to_chat_message := by
  unfold convertLatest
  simp only [h1, h2]
  rw [foldl_appendStep]
  simp

/-- Complete-state conversion, clean form. -/
theorem pgComplete_eq (thread_id : String) (r : PgRow) (msgs : List RawTyped) :
    pgComplete thread_id r msgs = msgs.filterMap (convertEnrich thread_id r) := by
  unfold pgComplete
  rw [foldl_appendStep]
  simp

/-- Converting and enriching succeeds exactly when converting succeeds. -/
theorem convertEnrich_isSome (thread_id : String) (r : PgRow) (m : RawTyped) :
    (convertEnrich thread_id r m).isSome = (langchain_to_chat_message m).isSome := by
  unfold convertEnrich
  cases langchain_to_chat_message m <;> simp

/-! ## Claim theorems -/

/-- C8: for every thread with zero checkpoints in the store, the history
operation returns an empty message sequence as a normal (non-error) outcome,
on both the in-memory and the persistent backend. -/
theorem empty_thread_empty_history (thread_id : String)
    (pg : PgStore) (inmem : InMemStore) :
    history { USE_INMEMORY_SAVER := true }
        { available := true, checkpoints := [] } pg thread_id = .ok []
    ∧ history { USE_INMEMORY_SAVER := false } inmem
        { available := true, rows := [] } thread_id = .ok [] := by
  exact ⟨rfl, rfl⟩

/-- C10: for a fixed checkpoint-store state and a fixed thread id, the
history operation is deterministic: two runs over identical settings and
identical store contents return identical message sequences (hence the same
length, order, and per-position fields). -/
theorem history_deterministic (s s' : Settings) (inmem inmem' : InMemStore)
    (pg pg' : PgStore) (thread_id : String)
    (h1 : s.USE_INMEMORY_SAVER = s'.USE_INMEMORY_SAVER)
    (h2 : inmem.available = inmem'.available)
    (h3 : inmem.checkpoints = inmem'.checkpoints)
    (h4 : pg.available = pg'.available)
    (h5 : pg.rows = pg'.rows) :
    history s inmem pg thread_id = history s' inmem' pg' thread_id := by
  cases s; cases s'; cases inmem; cases inmem'; cases pg; cases pg'
  simp_all

/-- Witness for C10 at a concrete store. -/
theorem history_deterministic_witness :
    history { USE_INMEMORY_SAVER := true } dedupStore dupStore "t2"
      = history { USE_INMEMORY_SAVER := true }
          { available := true, checkpoints := [dedupTuple1, dedupTuple2] }
          { available := true, rows := [dupRow, dupRow] } "t2" :=
  history_deterministic _ _ _ _ _ _ "t2" rfl rfl rfl rfl rfl

/-- C4: in the fallback merge path the checkpoints are processed in the
given ascending order, each contributing its delta-write candidates in the
fixed stage order `__start__`, then `agent`, then `tools`, preserving
within-stage and between-stage order. -/
theorem fallback_stage_order (thread_id : String) (w : Writes) (r : PgRow)
    (rows : List PgRow) :
    collectMessages w
        = stageMessages w.start ++ stageMessages w.agent ++ stageMessages w.tools
    ∧ pgFallback thread_id [] = []
    ∧ pgFallback thread_id (r :: rows)
        = (collectMessages (rowWrites r)).filterMap
            (processMessageData thread_id (metaRunId r) (metaSessionId r))
          ++ pgFallback thread_id rows :=
  ⟨collectMessages_eq w, pgFallback_nil thread_id, pgFallback_cons thread_id r rows⟩

/-- C2 counterexample: with the persistent backend selected, a store failure
makes the history operation produce an error (the route raises
`HTTPException(500)`), not a successful response with an empty message
list. -/
theorem pg_store_failure_error_counterexample :
    history { USE_INMEMORY_SAVER := false }
        { available := true, checkpoints := [] }
        { available := false, rows := [] } "t1"
      = .error "Failed to retrieve chat history" := rfl

/-- C2 amended: with the in-memory backend a store failure degrades to a
successful response with an empty message list; with the persistent backend
a store failure raises an HTTP 500 error instead of producing a successful
empty response. -/
theorem store_failure_behavior (inmem : InMemStore) (pg : PgStore)
    (thread_id : String)
    (h1 : inmem.available = false) (h2 : pg.available = false) :
    history { USE_INMEMORY_SAVER := true } inmem pg thread_id = .ok []
    ∧ history { USE_INMEMORY_SAVER := false } inmem pg thread_id
        = .error "Failed to retrieve chat history" := by
  constructor
  · simp [history, inmemHistory, h1]
  · simp [history, pgHistory, h2]

/-- Witness for C2 (amended) at a concrete failing store. -/
theorem store_failure_behavior_witness :
    history { USE_INMEMORY_SAVER := true }
        { available := false, checkpoints := [] }
        { available := false, rows := [] } "t1" = .ok []
    ∧ history { USE_INMEMORY_SAVER := false }
        { available := false, checkpoints := [] }
        { available := false, rows := [] } "t1"
        = .error "Failed to retrieve chat history" :=
  store_failure_behavior _ _ "t1" rfl rfl

/-- C1 counterexample: the persistent backend's fallback merge performs no
duplicate suppression — with two checkpoints whose delta-writes carry the
same `(human, "ok")` message, the returned transcript contains that entry
twice, i.e. a pair of entries sharing an identical `(type, content)`. -/
theorem history_fallback_dup_counterexample :
    history { USE_INMEMORY_SAVER := false }
        { available := true, checkpoints := [] } dupStore "t2"
      = .ok [okMsg, okMsg]
    ∧ ¬ NoDupKeys [okMsg, okMsg] := by
  constructor
  · rfl
  · intro hnd
    unfold NoDupKeys at hnd
    rw [List.pairwise_cons] at hnd
    exact hnd.1 okMsg (List.mem_singleton.mpr rfl) ⟨rfl, rfl⟩

/-- C1 amended: a transcript produced by the in-memory backend's fallback
merge path contains zero pairs of entries (adjacent or not) sharing an
identical `(type, content)` pair — each candidate is appended only if no
already-accumulated message has the same type and content.  (The persistent
backend's fallback appends without a duplicate check; see the
counterexample.) -/
theorem inmem_fallback_no_duplicate_keys (store : InMemStore)
    (h : convertLatest store.checkpoints = []) :
    NoDupKeys (inmemHistory store) := by
  have hist : inmemHistory store = []
      ∨ inmemHistory store = inmemFallback store.checkpoints := by
    unfold inmemHistory
    rw [h]
    split
    · split
      · exact Or.inl rfl
      · exact Or.inr (by simp)
    · exact Or.inl rfl
  cases hist with
  | inl he => rw [he]; exact List.Pairwise.nil
  | inr hf => rw [hf]; exact inmemFallback_noDupKeys store.checkpoints

/-- Witness for C1 (amended): a store whose latest checkpoint yields no
messages and whose fallback sees the same message twice. -/
theorem inmem_fallback_no_duplicate_keys_witness :
    NoDupKeys (inmemHistory dedupStore) :=
  inmem_fallback_no_duplicate_keys dedupStore rfl

/-- C7: a raw message matching neither supported shape, or whose
discriminator is not one of human/ai/tool, is skipped entirely, and
processing of the remaining messages and the remaining checkpoints
continues. -/
theorem unsupported_message_skipped (thread_id : String)
    (run_id session_id : Option String) (bad : MessageData)
    (pre post : List MessageData) (r : PgRow) (rows : List PgRow)
    (h : unsupportedShape bad = true) :
    processMessageData thread_id run_id session_id bad = none
    ∧ (pre ++ bad :: post).filterMap (processMessageData thread_id run_id session_id)
        = (pre ++ post).filterMap (processMessageData thread_id run_id session_id)
    ∧ pgFallback thread_id (r :: rows)
        = processRowClean thread_id r ++ pgFallback thread_id rows := by
  have hnone := processMessageData_unsupported thread_id run_id session_id bad h
  refine ⟨hnone, ?_, pgFallback_cons thread_id r rows⟩
  simp [List.filterMap_append, List.filterMap_cons, hnone]

/-- Witness for C7 at a concrete bad message inside a concrete list. -/
theorem unsupported_message_skipped_witness :
    processMessageData "t1" none none .notDict = none
    ∧ ([MessageData.withKwargs humanOkKwargs] ++ MessageData.notDict :: []).filterMap
        (processMessageData "t1" none none)
        = ([MessageData.withKwargs humanOkKwargs] ++ ([] : List MessageData)).filterMap
            (processMessageData "t1" none none)
    ∧ pgFallback "t1" (dupRow :: [])
        = processRowClean "t1" dupRow ++ pgFallback "t1" [] :=
  unsupported_message_skipped "t1" none none .notDict
    [.withKwargs humanOkKwargs] [] dupRow [] rfl

/-- C9: when normalizing an `ai` message in the fallback path, tool-call
candidates come from `tool_calls` when it is present and non-empty, and
otherwise from `additional_kwargs.tool_calls`; with a non-empty `tool_calls`
list, `additional_kwargs` is never consulted (replacing it cannot change the
processed message). -/
theorem ai_tool_call_source_selection (thread_id : String)
    (run_id session_id : Option String) (k : Kwargs) (l : List ToolCallCand)
    (ak : Option AdditionalKwargs) (_hai : k.type.getD "" = "ai") :
    (k.tool_calls = some l → l ≠ [] → selectToolCalls k = l)
    ∧ (k.tool_calls.getD [] = [] →
        selectToolCalls k
          = (match k.additional_kwargs with
             | some a => a.tool_calls.getD []
             | none => []))
    ∧ (k.tool_calls.getD [] ≠ [] →
        processMessageData thread_id run_id session_id
            (.withKwargs { k with additional_kwargs := ak })
          = processMessageData thread_id run_id session_id (.withKwargs k)) := by
  refine ⟨?_, ?_, ?_⟩
  · intro hsome hne
    unfold selectToolCalls
    rw [hsome]
    cases l with
    | nil => exact absurd rfl hne
    | cons x xs => simp
  · intro h0
    simp only [selectToolCalls, h0]
    cases k.additional_kwargs <;> simp
  · intro hne
    have hsel := selectToolCalls_update k ak hne
    simp [processMessageData, buildRawMessage, hsel]

/-- Witness for C9 at a concrete `ai` record with a decoy
`additional_kwargs`. -/
theorem ai_tool_call_source_selection_witness :
    selectToolCalls aiKwargs9
      = [.dict (some "search") (some [("q", "x")]) (some "id1")]
    ∧ processMessageData "t1" none none
        (.withKwargs { aiKwargs9 with additional_kwargs := none })
      = processMessageData "t1" none none (.withKwargs aiKwargs9) := by
  have h := ai_tool_call_source_selection "t1" none none aiKwargs9
    [.dict (some "search") (some [("q", "x")]) (some "id1")] none rfl
  exact ⟨h.1 rfl (by decide), h.2.2 (by decide)⟩

/-- C6 counterexample: a candidate carrying both `name` and `args` together
with the id `""` is kept, but its id is not preserved: Python truthiness
turns the falsy empty-string id into `null`. -/
theorem tool_call_id_truthiness_counterexample :
    cand6 = .dict (some "search") (some [("q", "x")]) (some "")
    ∧ (processMessageData "t1" none none (.withKwargs aiKwargs6)).map
        (fun cm => cm.tool_calls)
      = some [{ name := "search", args := [("q", "x")], id := none }]
    ∧ (some "" : Option String) ≠ (none : Option String) := by
  refine ⟨rfl, rfl, by simp⟩

/-- C6 amended: for every `ai` message, a tool-call candidate missing either
`name` or `args` (or that is not a record) is dropped from the resulting
message's `toolCalls` while the message itself — its type and content — stays
present; a candidate carrying both fields is kept with `name` and `args`
preserved, and with its `id` preserved when it is a non-empty string (a
missing or falsy id becomes `null`). -/
theorem tool_call_filtering (thread_id : String)
    (run_id session_id : Option String) (k : Kwargs)
    (n : String) (a : StrMap) (i : Option String)
    (oa : Option StrMap) (oi : Option String) (on2 : Option String)
    (hai : k.type.getD "" = "ai") :
    (∃ cm, processMessageData thread_id run_id session_id (.withKwargs k) = some cm
      ∧ cm.type = "ai"
      ∧ cm.content = k.content.getD ""
      ∧ cm.tool_calls = (selectToolCalls k).filterMap formatToolCall)
    ∧ formatToolCall (.dict (some n) (some a) i)
        = some { name := n, args := a, id := truthyOpt i }
    ∧ formatToolCall (.dict none oa oi) = none
    ∧ formatToolCall (.dict on2 none oi) = none
    ∧ formatToolCall .nonDict = none := by
  refine ⟨⟨_, processMessageData_ai_eq thread_id run_id session_id k hai,
    rfl, rfl, rfl⟩, rfl, ?_, ?_, rfl⟩
  · cases oa <;> rfl
  · cases on2 <;> rfl

/-- Witness for C6 (amended) at a concrete `ai` record. -/
theorem tool_call_filtering_witness :
    (∃ cm, processMessageData "t1" none none (.withKwargs aiKwargs6) = some cm
      ∧ cm.type = "ai"
      ∧ cm.content = aiKwargs6.content.getD ""
      ∧ cm.tool_calls = (selectToolCalls aiKwargs6).filterMap formatToolCall)
    ∧ formatToolCall (.dict (some "search") (some [("q", "x")]) (some "id1"))
        = some { name := "search", args := [("q", "x")], id := truthyOpt (some "id1") }
    ∧ formatToolCall (.dict none (some [("q", "x")]) (some "id1")) = none
    ∧ formatToolCall (.dict (some "search") none (some "id1")) = none
    ∧ formatToolCall .nonDict = none :=
  tool_call_filtering "t1" none none aiKwargs6 "search" [("q", "x")]
    (some "id1") (some [("q", "x")]) (some "id1") (some "search") rfl

/-- C5 counterexample: the fallback path does not draw `threadId` from the
checkpoint's metadata — with a metadata blob whose `thread_id` key holds
`"other"`, the produced message's `thread_id` is the requested thread id
`"t1"`, not the metadata value. -/
theorem enrichment_metadata_thread_id_counterexample :
    pgHistory { available := true, rows := [cex5row] } "t1" = .ok [cex5msg]
    ∧ cex5meta.thread_id = some "other"
    ∧ cex5msg.thread_id = some "t1"
    ∧ cex5msg.thread_id ≠ cex5meta.thread_id := by
  refine ⟨rfl, rfl, rfl, by decide⟩

/-- C5 amended: in the persistent backend's fallback path, every produced
message comes from some checkpoint row of the thread and carries `runId` and
`sessionId` drawn (when truthy) from that row's own metadata — not the latest
checkpoint's — while `threadId` is set to the requested thread id (which the
store guarantees equals every returned row's thread id), not read from
metadata. -/
theorem fallback_enrichment_own_checkpoint (thread_id : String)
    (rows : List PgRow) (cm : ChatMessage)
    (h : cm ∈ pgFallback thread_id rows) :
    ∃ r ∈ rows,
      (∃ md ∈ collectMessages (rowWrites r),
        processMessageData thread_id (metaRunId r) (metaSessionId r) md = some cm)
      ∧ cm.run_id = truthyOpt (metaRunId r)
      ∧ cm.session_id = truthyOpt (metaSessionId r)
      ∧ cm.thread_id = truthyStr thread_id := by
  obtain ⟨r, hr, md, hmd, hp⟩ := mem_pgFallback h
  obtain ⟨h1, h2, h3⟩ := processMessageData_ids _ _ _ _ _ hp
  exact ⟨r, hr, ⟨md, hmd, hp⟩, h1, h3, h2⟩

/-- Witness for C5 (amended) at a concrete fallback store and message. -/
theorem fallback_enrichment_own_checkpoint_witness :
    ∃ r ∈ [cex5row],
      (∃ md ∈ collectMessages (rowWrites r),
        processMessageData "t1" (metaRunId r) (metaSessionId r) md = some cex5msg)
      ∧ cex5msg.run_id = truthyOpt (metaRunId r)
      ∧ cex5msg.session_id = truthyOpt (metaSessionId r)
      ∧ cex5msg.thread_id = truthyStr "t1" :=
  fallback_enrichment_own_checkpoint "t1" [cex5row] cex5msg (by decide)

/-- C3: for every thread whose latest checkpoint's snapshot contains a
non-empty `messages` list of length n (each message of a supported shape),
the history operation returns exactly the n normalized messages in the
snapshot's order — the result is the plain per-message conversion of the
snapshot list, so no deduplication is applied and two identical adjacent
snapshot messages both survive — and the fallback merge is not entered, on
both backends. -/
theorem complete_state_path_exact (inmem : InMemStore) (pg : PgStore)
    (thread_id : String) (latestTuple : CheckpointTuple) (latestRow : PgRow)
    (msgsI msgsP : List RawTyped)
    (hI0 : inmem.available = true)
    (hI1 : inmem.checkpoints.getLast? = some latestTuple)
    (hI2 : snapshotMessages latestTuple = some msgsI)
    (hI3 : msgsI ≠ [])
    (hI4 : ∀ m ∈ msgsI, (langchain_to_chat_message m).isSome)
    (hP0 : pg.available = true)
    (hP1 : pg.rows.getLast? = some latestRow)
    (hP2 : checkpointMessages latestRow.checkpoint = some msgsP)
    (_hP3 : msgsP ≠ [])
    (hP4 : ∀ m ∈ msgsP, (langchain_to_chat_message m).isSome) :
    (history { USE_INMEMORY_SAVER := true } inmem pg thread_id
        = .ok (msgsI.filterMap langchain_to_chat_message)
      ∧ (msgsI.filterMap langchain_to_chat_message).length = msgsI.length)
    ∧ (history { USE_INMEMORY_SAVER := false } inmem pg thread_id
        = .ok (msgsP.filterMap (convertEnrich thread_id latestRow))
      ∧ (msgsP.filterMap (convertEnrich thread_id latestRow)).length
          = msgsP.length) := by
  have hlenI : (msgsI.filterMap langchain_to_chat_message).length = msgsI.length :=
    length_filterMap_of_isSome _ msgsI hI4
  have hlenP : (msgsP.filterMap (convertEnrich thread_id latestRow)).length
      = msgsP.length := by
    refine length_filterMap_of_isSome _ msgsP (fun m hm => ?_)
    rw [convertEnrich_isSome]
    exact hP4 m hm
  have hcl : convertLatest inmem.checkpoints
      = msgsI.filterMap langchain_to_chat_message := convertLatest_eq hI1 hI2
  have hfne : (msgsI.filterMap langchain_to_chat_message).isEmpty = false := by
    cases hfc : msgsI.filterMap langchain_to_chat_message with
    | nil =>
      rw [hfc] at hlenI
      exact absurd (List.length_eq_zero.mp hlenI.symm) hI3
    | cons a l => rfl
  have hempty : inmem.checkpoints.isEmpty = false := by
    cases hc : inmem.checkpoints with
    | nil => rw [hc] at hI1; simp at hI1
    | cons a l => rfl
  have hhist : inmemHistory inmem = msgsI.filterMap langchain_to_chat_message := by
    unfold inmemHistory
    rw [hI0, hempty, hcl]
    simp [hfne]
  have hpg : pgHistory pg thread_id
      = .ok (msgsP.filterMap (convertEnrich thread_id latestRow)) := by
    unfold pgHistory
    rw [hP0]
    simp [hP1, hP2, pgComplete_eq]
  exact ⟨⟨by simp [history, hhist], hlenI⟩, ⟨by simp [history, hpg], hlenP⟩⟩

/-- Witness for C3: both backends with a latest snapshot holding two
identical adjacent messages; both survive (length 2 = 2). -/
theorem complete_state_path_exact_witness :
    (history { USE_INMEMORY_SAVER := true } snapStore snapPgStore "t1"
        = .ok ([RawTyped.human "hi", RawTyped.human "hi"].filterMap
            langchain_to_chat_message)
      ∧ ([RawTyped.human "hi", RawTyped.human "hi"].filterMap
          langchain_to_chat_message).length
          = [RawTyped.human "hi", RawTyped.human "hi"].length)
    ∧ (history { USE_INMEMORY_SAVER := false } snapStore snapPgStore "t1"
        = .ok ([RawTyped.human "hi", RawTyped.human "hi"].filterMap
            (convertEnrich "t1" snapRow))
      ∧ ([RawTyped.human "hi", RawTyped.human "hi"].filterMap
          (convertEnrich "t1" snapRow)).length
          = [RawTyped.human "hi", RawTyped.human "hi"].length) :=
  complete_state_path_exact snapStore snapPgStore "t1" snapTuple snapRow
    [.human "hi", .human "hi"] [.human "hi", .human "hi"]
    rfl rfl rfl (by decide) (by decide)
    rfl rfl rfl (by decide) (by decide)

end TemplateAgent
